import Mathlib

/-!
Verification development for the SConv transform extension
(`src/lib/SConv.cpp`): a shallow embedding of the pieces of the rewrite
pipeline that the specification describes — problem extraction and
validation, the reduction reformulation's affine index maps, the CSA
schedule decision routing, the two-level tiling parameters, and the
loop-swap rewrite — together with theorems settling the spec's claims.
-/

namespace SConvProof

/-! ## Data model

Shape parameters extracted from the convolution in `SConvOp::apply`
(SConv.cpp:383-405).  Machine integers are `int64_t` in the source; the
shapes involved are small and no arithmetic there can overflow, so they
are embedded as `Int`.  Loop indices of the six logical dimensions
`d0..d5` are non-negative, so they are embedded as `Nat` (MLIR affine
`floorDiv`/`mod` with a positive divisor coincide with `Nat` division and
remainder on non-negative operands). -/

structure ConvParams where
  n : Int
  ic : Int
  fh : Int
  fw : Int
  oc : Int
  oh : Int
  ow : Int
  sh : Int
  sw : Int
deriving DecidableEq, Repr

/-- The `ConvInfo` struct passed to the CSA analyzer (SConv.cpp:434):
`{ic, oh, ow, fh, fw, oc, 4}`. -/
structure ConvInfo where
  ic : Int
  oh : Int
  ow : Int
  fh : Int
  fw : Int
  oc : Int
  v : Int
deriving DecidableEq, Repr

/-- Construction of the analyzer input from the extracted shape
parameters, exactly as at SConv.cpp:434: batch size `n` and the strides
`sh`, `sw` are not passed, and the vector width is the literal `4`. -/
def mkCsaConv (p : ConvParams) : ConvInfo :=
  { ic := p.ic, oh := p.oh, ow := p.ow, fh := p.fh, fw := p.fw, oc := p.oc, v := 4 }

/-- The two dataflow strategies (`IS`/`WS` in CSA.h as used by SConv.cpp). -/
inductive Sched where
  | IS
  | WS
deriving DecidableEq, Repr

/-- The `CSAStrategy` record consumed by `applyTileTo`
(fields as used at SConv.cpp:270-303, 436-439). -/
structure CSAStrategy where
  schd : Sched
  k2 : Int
  k3 : Int
  tile_c : Int
deriving DecidableEq, Repr

/-- The microkernel shape `csa.mK_` as used by `applyTileTo`
(SConv.cpp:270-271, 298). -/
structure MicroKernel where
  num_filters : Int
  nwindows : Int
deriving DecidableEq, Repr

/-! ## Reduction reformulation: affine index maps (SConv.cpp:407-411)

The code builds, over the six logical loop dimensions
`(d0, d1, d2, d3, d4, d5)`, the input-operand map

  `{d0, d3, d2.floorDiv(oh) * hstride + d4, d2 % oh * wstride + d5}`

i.e. it decomposes the flattened window index `d2` using `oh`.  The spec
states the decomposition uses `ow`.  Both are embedded below and compared;
the flattening itself (SConv.cpp:392-395) collapses the trailing output
axes `{oh, ow}` row-major, so the flattened index of output position
`(y, x)` is `y * ow + x`. -/

/-- Input-operand affine map exactly as built by the code (SConv.cpp:409):
third coordinate `floor(d2/oh)*sh + d4`, fourth `(d2 mod oh)*sw + d5`. -/
def lhsMapCode (oh sh sw : Nat) (d0 d2 d3 d4 d5 : Nat) : List Nat :=
  [d0, d3, d2 / oh * sh + d4, d2 % oh * sw + d5]

/-- Input-operand affine map as the spec words it (spec §4.2):
`(d0, d3, floor(d2/ow)*sh + d4, (d2 mod ow)*sw + d5)` — decomposition of
the flattened window index by the output width `ow`. -/
def lhsMapSpec (ow sh sw : Nat) (d0 d2 d3 d4 d5 : Nat) : List Nat :=
  [d0, d3, d2 / ow * sh + d4, d2 % ow * sw + d5]

/-- Direct 2-D NCHW/FCHW convolution output element (unit dilation):
`out[b][f][y][x] = Σ_{c<ic} Σ_{r<fh} Σ_{s<fw} input[b][c][y*sh+r][x*sw+s] * filter[f][c][r][s]`. -/
def directConvOut (input filter : Nat → Nat → Nat → Nat → Int)
    (ic fh fw sh sw : Nat) (b f y x : Nat) : Int :=
  (List.range ic).foldl (fun acc c =>
    (List.range fh).foldl (fun acc r =>
      (List.range fw).foldl (fun acc s =>
        acc + input b c (y * sh + r) (x * sw + s) * filter f c r s) acc) acc) 0

/-- Value of the generic reduction built by the code at flattened output
position `(b, f, w)`: the reduction body accumulates
`input ∘ lhsMapCode` times `filter ∘ rhsMap` over the three reduction
dimensions `d3, d4, d5` (SConv.cpp:407-425), with the input coordinates
taken from the code's map (decomposition of `d2 = w` by `oh`). -/
def genericConvFlatCode (input filter : Nat → Nat → Nat → Nat → Int)
    (ic fh fw oh sh sw : Nat) (b f w : Nat) : Int :=
  (List.range ic).foldl (fun acc c =>
    (List.range fh).foldl (fun acc r =>
      (List.range fw).foldl (fun acc s =>
        acc + input b c (w / oh * sh + r) (w % oh * sw + s) * filter f c r s) acc) acc) 0

/-- Same reduction but with the input coordinates from the spec's map
(decomposition of `d2 = w` by `ow`). -/
def genericConvFlatSpec (input filter : Nat → Nat → Nat → Nat → Int)
    (ic fh fw ow sh sw : Nat) (b f w : Nat) : Int :=
  (List.range ic).foldl (fun acc c =>
    (List.range fh).foldl (fun acc r =>
      (List.range fw).foldl (fun acc s =>
        acc + input b c (w / ow * sh + r) (w % ow * sw + s) * filter f c r s) acc) acc) 0

/-! ## CSA decision routing (SConv.cpp:433-443) -/

/-- The `ScheduleDecision` actually handed to `applyTileTo`
(SConv.cpp:436-443): the analyzer's result `res = csa()` is
unconditionally overwritten by the hardcoded values
`res.schd = IS; res.k2 = 8; res.k3 = 2; res.tile_c = 16;` (the block the
source marks `/* Just for test */`). -/
def decisionUsed (analyzerOut : CSAStrategy) : CSAStrategy :=
  let res := analyzerOut
  { res with schd := Sched.IS, k2 := 8, k3 := 2, tile_c := 16 }

/-! ## Tiling parameters (applyTileTo, SConv.cpp:267-310) -/

/-- Outer (macro) tile sizes (SConv.cpp:270-272):
`{1, num_filters * (IS ? k2 : k3), nwindows * (IS ? k3 : k2), tile_c, 0, 0}`. -/
def tileSize (mk : MicroKernel) (res : CSAStrategy) : List Int :=
  let nFTiles := mk.num_filters * (if res.schd = Sched.IS then res.k2 else res.k3)
  let nWinTiles := mk.nwindows * (if res.schd = Sched.IS then res.k3 else res.k2)
  [1, nFTiles, nWinTiles, res.tile_c, 0, 0]

/-- Outer tile interchange (SConv.cpp:278-280): `{0, 3, outer, inner}`
with `outer = IS ? 2 : 1` and `inner = IS ? 1 : 2`. -/
def tileInterchange (res : CSAStrategy) : List Int :=
  let outer : Int := if res.schd = Sched.IS then 2 else 1
  let inner : Int := if res.schd = Sched.IS then 1 else 2
  [0, 3, outer, inner]

/-- Inner (micro) tile sizes (SConv.cpp:298):
`{0, num_filters, nwindows, 0, 0, 0}`. -/
def innerTileSize (mk : MicroKernel) : List Int :=
  [0, mk.num_filters, mk.nwindows, 0, 0, 0]

/-- Inner tile interchange (SConv.cpp:301-303): `{IS ? 1 : 0, IS ? 0 : 1}`. -/
def innerInterchange (res : CSAStrategy) : List Int :=
  let innerFOrder : Int := if res.schd = Sched.IS then 1 else 0
  let innerSOrder : Int := if res.schd = Sched.IS then 0 else 1
  [innerFOrder, innerSOrder]

/-! ## Validation in `SConvOp::apply` (SConv.cpp:353-395)

The entry point first checks, in order: the target casts to
`linalg::Conv2DNchwFchwOp`; the filter shape is static; the input shape is
static; all dilation values are one (`hasAllOneValues`, SConv.cpp:110-113).
Each failing check returns `emitSilenceableError()` with its message.  The
first IR mutation is the creation of the `tensor.collapse_shape`
(SConv.cpp:394), which is only reached after all four checks pass. -/

/-- Failure kinds of the transform entry point: validation failures are
silenceable (`emitSilenceableError`), downstream failures definite
(`DiagnosedSilenceableFailure::definiteFailure`, SConv.cpp:445). -/
inductive Failure where
  | silenceable (msg : String)
  | definite (msg : String)
deriving DecidableEq, Repr

/-- An IR mutation performed through the rewriter. -/
inductive MutEvent where
  | createOp (name : String)
  | replaceOp (name : String)
  | eraseOp (name : String)
deriving DecidableEq, Repr

/-- The aspects of a candidate payload operation that the validation
checks of `SConvOp::apply` inspect. -/
structure CandidateOp where
  isConv2DNchwFchw : Bool
  filterStatic : Bool
  inputStatic : Bool
  dilations : List Int
deriving DecidableEq, Repr

/-- Validation prefix of `SConvOp::apply` (SConv.cpp:353-395) with its
mutation trace: the four checks run in source order and each failure
returns a silenceable error before any rewriter mutation; the success
path performs the reformulation mutations (collapse, generic, expand,
replace) and continues into the CSA/tiling stage (abstracted as `.ok`). -/
def sconvApplyTrace (op : CandidateOp) : Except Failure Unit × List MutEvent :=
  if ¬op.isConv2DNchwFchw then
    (Except.error (Failure.silenceable "expected a Conv2DNchwFchwOp for transformation"), [])
  else if ¬op.filterStatic then
    (Except.error (Failure.silenceable "expected a static shape for the filter"), [])
  else if ¬op.inputStatic then
    (Except.error (Failure.silenceable "expected a static shape for the input"), [])
  else if ¬op.dilations.all (fun d => d = 1) then
    (Except.error (Failure.silenceable "expected all ones for dilations"), [])
  else
    (Except.ok (),
     [MutEvent.createOp "tensor.collapse_shape", MutEvent.createOp "linalg.generic",
      MutEvent.createOp "tensor.expand_shape", MutEvent.replaceOp "linalg.conv_2d_nchw_fchw"])

/-! ## Locating the accumulation op (swapInductionVars, SConv.cpp:181-191)

The rewrite walks the cloned inner-loop body once, remembering the first
`tensor.insert_slice` it sees; a second one is an immediate error, and
finding none at the end is an error. -/

/-- Operations that can appear in the cloned inner-loop body, abstracted
by kind; `insertSlice` stands for `tensor.insert_slice` (the
partial-result accumulation), everything else is opaque. -/
inductive BodyOp where
  | insertSlice (id : Nat)
  | genericOp (id : Nat)
  | otherOp (id : Nat)
deriving DecidableEq, Repr

def BodyOp.isInsertSlice : BodyOp → Bool
  | .insertSlice _ => true
  | _ => false

/-- The scan loop of SConv.cpp:183-189: fold over the body operations
carrying the first `tensor.insert_slice` found so far, erroring on a
second one. -/
def findInsertSliceLoop : List BodyOp → Option BodyOp → Except String (Option BodyOp)
  | [], found => Except.ok found
  | op :: rest, found =>
    if op.isInsertSlice then
      match found with
      | some _ =>
        Except.error "Multiple tensor.insert_slice operations found in the innerLoop body"
      | none => findInsertSliceLoop rest (some op)
    else
      findInsertSliceLoop rest found

/-- The full lookup of SConv.cpp:181-191: run the scan from an empty
accumulator and turn the empty outcome into the missing-op error. -/
def lookupInsertSlice (body : List BodyOp) : Except String BodyOp :=
  match findInsertSliceLoop body none with
  | Except.error msg => Except.error msg
  | Except.ok none =>
    Except.error "No tensor.insert_slice operation found in the innerLoop body"
  | Except.ok (some op) => Except.ok op

/-! ## The swapped loop construction (swapInductionVars, SConv.cpp:145-168)

`scf.for` operations are embedded as records of SSA value identifiers
(`Nat` ids): bounds, step, initial arguments, the block arguments
(induction variable and region iteration arguments) and the ids of loops
directly contained in the body.  Creating a loop allocates fresh block
arguments. -/

structure ForOpData where
  opId : Nat
  lowerBound : Nat
  upperBound : Nat
  step : Nat
  initArgs : List Nat
  inductionVar : Nat
  regionIterArgs : List Nat
  bodyLoops : List Nat
deriving DecidableEq, Repr

/-- Creation of an `scf.for` (`rewriter.create<scf::ForOp>`): block
arguments are fresh values starting at `freshVal` (first the induction
variable, then one region iteration argument per initial argument). -/
def mkForOp (opId lb ub step : Nat) (initArgs : List Nat) (freshVal : Nat) : ForOpData :=
  { opId := opId, lowerBound := lb, upperBound := ub, step := step,
    initArgs := initArgs,
    inductionVar := freshVal,
    regionIterArgs := (List.range initArgs.length).map (fun i => freshVal + 1 + i),
    bodyLoops := [] }

/-- The construction steps of SConv.cpp:145-168: the new outer loop takes
the inner loop's bounds and step with the outer loop's initial arguments;
the new inner loop is created inside the new outer loop's body with the
outer loop's bounds and step and the new outer loop's region iteration
arguments; the substitution map records outer-IV → new-inner-IV,
inner-IV → new-outer-IV, then the region-argument correspondences. -/
def buildSwappedLoops (outerLoop innerLoop : ForOpData) (freshOp freshVal : Nat) :
    ForOpData × ForOpData × List (Nat × Nat) :=
  let newOuter0 := mkForOp freshOp innerLoop.lowerBound innerLoop.upperBound
      innerLoop.step outerLoop.initArgs freshVal
  let newInner := mkForOp (freshOp + 1) outerLoop.lowerBound outerLoop.upperBound
      outerLoop.step newOuter0.regionIterArgs (freshVal + 1 + outerLoop.initArgs.length)
  let newOuter := { newOuter0 with bodyLoops := [newInner.opId] }
  let mapping :=
    (outerLoop.inductionVar, newInner.inductionVar) ::
    (innerLoop.inductionVar, newOuter.inductionVar) ::
    (outerLoop.regionIterArgs.zip newOuter.regionIterArgs ++
     innerLoop.regionIterArgs.zip newInner.regionIterArgs)
  (newOuter, newInner, mapping)

/-- The loop-handle update of SConv.cpp:244-245 after a swap:
`loopOps[0] = newOuterLoop; loopOps[1] = newInnerLoop;`. -/
def swapUpdateLoopOps (outerLoop innerLoop : ForOpData) (freshOp freshVal : Nat)
    (loopOps : List Nat) : List Nat :=
  let built := buildSwappedLoops outerLoop innerLoop freshOp freshVal
  (loopOps.set 0 built.1.opId).set 1 built.2.1.opId

/-- The loop-handle collection of SConv.cpp:321-326: the inner tiling
pass's loops are pushed first, then the outer tiling pass's loops. -/
def collectLoopOps (innerPassLoops outerPassLoops : List Nat) : List Nat :=
  innerPassLoops ++ outerPassLoops

/-- A handle list is ordered innermost first (with respect to a loop
containment relation) when no earlier handle contains a later one. -/
def innermostFirst (containsF : Nat → Nat → Bool) (hs : List Nat) : Prop :=
  ∀ i j : Fin hs.length, i.val < j.val → containsF (hs.get i) (hs.get j) = false

instance (containsF : Nat → Nat → Bool) (hs : List Nat) :
    Decidable (innermostFirst containsF hs) := by
  unfold innermostFirst
  infer_instance

/-! ## Mutation trace of the swap (swapInductionVars, SConv.cpp:134-250)

The control and mutation flow of `swapInductionVars`: an immediate
success when the strategy is not Input-Stationary; the loop-shape check
before any mutation; then the two new loops are created and the inner
body cloned BEFORE the accumulation-op lookup and the yielded-type
checks, and the old loops are erased only on the success path. -/

inductive SwapEvent where
  | createNewLoop (which : Nat)
  | cloneBodyOp
  | createYield
  | replaceUses
  | eraseOldLoop (which : Nat)
deriving DecidableEq, Repr

/-- The aspects of `swapInductionVars`'s input that drive its control
flow: the schedule, whether `loopOps[0]`/`loopOps[1]` are `scf.for`, the
(non-terminator) inner-loop body, and whether the two values picked for
the new inner yield have shaped types. -/
structure SwapInput where
  schd : Sched
  loopsAreFor : Bool
  innerBody : List BodyOp
  filterShaped : Bool
  inputShaped : Bool
deriving DecidableEq, Repr

/-- Mutation trace of `swapInductionVars` (SConv.cpp:134-250). Events:
creation of the new outer and inner loops (SConv.cpp:147, 153), one clone
per inner-body operation (SConv.cpp:172-179), then — only after the
accumulation lookup and type checks pass — the inner yield, the outer
body clones and yield, the use replacement and the erasure of the old
inner (`eraseOldLoop 0`) and old outer (`eraseOldLoop 1`) loops
(SConv.cpp:208-238). -/
def swapInductionVarsTrace (inp : SwapInput) : Except String Unit × List SwapEvent :=
  if inp.schd ≠ Sched.IS then (Except.ok (), [])
  else if ¬inp.loopsAreFor then (Except.error "Loops must be scf.for", [])
  else
    let pre := SwapEvent.createNewLoop 0 :: SwapEvent.createNewLoop 1 ::
      inp.innerBody.map (fun _ => SwapEvent.cloneBodyOp)
    match lookupInsertSlice inp.innerBody with
    | Except.error msg => (Except.error msg, pre)
    | Except.ok _ =>
      if ¬inp.filterShaped then
        (Except.error "Invalid or missing FilterType in scf.yield", pre)
      else if ¬inp.inputShaped then
        (Except.error "Invalid or missing InputType in scf.yield", pre)
      else
        (Except.ok (),
         pre ++ [SwapEvent.createYield, SwapEvent.cloneBodyOp, SwapEvent.createYield,
                 SwapEvent.replaceUses, SwapEvent.eraseOldLoop 0, SwapEvent.eraseOldLoop 1])

/-! ## Use replacement and erasure after the swap (SConv.cpp:229-238)

`replaceAllUsesWith` is applied sequentially over the zipped pairs of old
and new inner results, then old and new outer results; then the old inner
and outer loops are erased.  Values and operations are `Nat` ids; a use
is a pair (user id, used value id). -/

/-- Sequential application of `replaceAllUsesWith` over a pair list: each
pair rewrites the value before the next pair is applied, mirroring the
two loops at SConv.cpp:230-235. -/
def substSeq : List (Nat × Nat) → Nat → Nat
  | [], v => v
  | p :: rest, v => substSeq rest (if v = p.1 then p.2 else v)

/-- The post-swap cleanup (SConv.cpp:229-238): redirect every use through
the sequential substitution built from the inner result pairs followed by
the outer result pairs, then erase the old inner and old outer loops from
the op list. -/
def finalizeSwap (oldInnerRes newInnerRes oldOuterRes newOuterRes : List Nat)
    (uses : List (Nat × Nat)) (ops : List Nat) (oldInnerId oldOuterId : Nat) :
    List (Nat × Nat) × List Nat :=
  let pairs := oldInnerRes.zip newInnerRes ++ oldOuterRes.zip newOuterRes
  ((uses.map (fun u => (u.1, substSeq pairs u.2))),
   ((ops.filter (fun o => o ≠ oldInnerId)).filter (fun o => o ≠ oldOuterId)))

/-! ## Theorems -/

/-- C1: the claim states the input-operand map decomposes the flattened
window index `d2` by the output width `ow` for every valid problem,
including `oh ≠ ow`.  The code (SConv.cpp:409) decomposes by `oh`
instead.  At `oh = 2, ow = 3, sh = sw = 1, d2 = 2` the code map differs
from the spec map, and on a concrete `2×3`-output convolution with
`n = ic = oc = fh = fw = 1` the code's reduction reads the wrong input
element (value 3 instead of 2) while the spec's map reproduces the direct
convolution — the claim describes the intended behaviour and the code's
use of `oh` is the slip. -/
theorem C1_input_map_decomposition_bug :
    lhsMapCode 2 1 1 0 2 0 0 0 ≠ lhsMapSpec 3 1 1 0 2 0 0 0 ∧
    genericConvFlatCode (fun _ _ y x => (y * 3 + x : Int)) (fun _ _ _ _ => 1)
        1 1 1 2 1 1 0 0 2 ≠
      directConvOut (fun _ _ y x => (y * 3 + x : Int)) (fun _ _ _ _ => 1)
        1 1 1 1 1 0 0 0 2 ∧
    genericConvFlatSpec (fun _ _ y x => (y * 3 + x : Int)) (fun _ _ _ _ => 1)
        1 1 1 3 1 1 0 0 2 =
      directConvOut (fun _ _ y x => (y * 3 + x : Int)) (fun _ _ _ _ => 1)
        1 1 1 1 1 0 0 0 2 := by
  refine ⟨by decide, by decide, by decide⟩

/-- C2: the claim states the schedule decision consumed by the tiler is
always the analyzer's output.  In the code (SConv.cpp:438-440) the block
marked `/* Just for test */` unconditionally overwrites the analyzer's
result with `{IS, k2 = 8, k3 = 2, tile_c = 16}` before `applyTileTo` is
called, so the decision used is the constant override, not the analyzer's
output: for the analyzer output `{WS, 1, 1, 4}` the consumed decision
differs from it. -/
theorem C2_decision_override :
    (∀ analyzerOut : CSAStrategy,
      decisionUsed analyzerOut =
        { schd := Sched.IS, k2 := 8, k3 := 2, tile_c := 16 }) ∧
    decisionUsed { schd := Sched.WS, k2 := 1, k3 := 1, tile_c := 4 } ≠
      { schd := Sched.WS, k2 := 1, k3 := 1, tile_c := 4 } := by
  refine ⟨fun analyzerOut => rfl, by decide⟩

/-- C3: any candidate that is not the expected convolution op kind, or
has a non-static filter or input shape, or a non-unit dilation, makes
`SConvOp::apply` return a silenceable error with an empty mutation
trace — validation fails fast before any rewrite of the payload IR
(SConv.cpp:353-395). -/
theorem C3_validation_fails_fast (op : CandidateOp)
    (h : ¬op.isConv2DNchwFchw ∨ ¬op.filterStatic ∨ ¬op.inputStatic ∨
         ¬op.dilations.all (fun d => d = 1)) :
    (∃ msg, (sconvApplyTrace op).1 = Except.error (Failure.silenceable msg)) ∧
    (sconvApplyTrace op).2 = [] := by
  by_cases h1 : op.isConv2DNchwFchw
  · by_cases h2 : op.filterStatic
    · by_cases h3 : op.inputStatic
      · by_cases h4 : op.dilations.all (fun d => d = 1)
        · rcases h with h | h | h | h
          · exact absurd h1 h
          · exact absurd h2 h
          · exact absurd h3 h
          · exact absurd h4 h
        · refine ⟨⟨"expected all ones for dilations", ?_⟩, ?_⟩ <;>
            simp [sconvApplyTrace, h1, h2, h3, h4]
      · refine ⟨⟨"expected a static shape for the input", ?_⟩, ?_⟩ <;>
          simp [sconvApplyTrace, h1, h2, h3]
    · refine ⟨⟨"expected a static shape for the filter", ?_⟩, ?_⟩ <;>
        simp [sconvApplyTrace, h1, h2]
  · refine ⟨⟨"expected a Conv2DNchwFchwOp for transformation", ?_⟩, ?_⟩ <;>
      simp [sconvApplyTrace, h1]

/-- C3 witness: a well-formed convolution candidate with dilation `[2,1]`
is rejected silenceably with no mutation. -/
theorem C3_validation_fails_fast_witness :
    (∃ msg, (sconvApplyTrace ⟨true, true, true, [2, 1]⟩).1 =
        Except.error (Failure.silenceable msg)) ∧
    (sconvApplyTrace ⟨true, true, true, [2, 1]⟩).2 = [] :=
  C3_validation_fails_fast ⟨true, true, true, [2, 1]⟩
    (Or.inr (Or.inr (Or.inr (by decide))))

/-- C4: for every microkernel shape and schedule decision, the outer tile
sizes are `(1, numFilters*(k2 if IS else k3), numWindows*(k3 if IS else k2),
tileC, 0, 0)`, the inner tile sizes are `(0, numFilters, numWindows, 0, 0, 0)`,
the outer interchange is `(0,3,2,1)` for Input-Stationary (window dim 2
before filter dim 1) versus `(0,3,1,2)` for Weight-Stationary, and the
inner interchange is the mirror `(1,0)` versus `(0,1)`
(SConv.cpp:267-310). -/
theorem C4_tiling_parameters (mk : MicroKernel) (res : CSAStrategy) :
    tileSize mk res =
      [1, mk.num_filters * (match res.schd with | Sched.IS => res.k2 | Sched.WS => res.k3),
          mk.nwindows * (match res.schd with | Sched.IS => res.k3 | Sched.WS => res.k2),
          res.tile_c, 0, 0] ∧
    innerTileSize mk = [0, mk.num_filters, mk.nwindows, 0, 0, 0] ∧
    tileInterchange res = (match res.schd with
      | Sched.IS => [0, 3, 2, 1]
      | Sched.WS => [0, 3, 1, 2]) ∧
    innerInterchange res = (match res.schd with
      | Sched.IS => [1, 0]
      | Sched.WS => [0, 1]) := by
  cases hres : res.schd <;>
    simp [tileSize, innerTileSize, tileInterchange, innerInterchange, hres]

/-- A scan over a body containing no `tensor.insert_slice` returns the
accumulator unchanged. -/
theorem findInsertSliceLoop_count_zero (body : List BodyOp) (found : Option BodyOp)
    (h : body.countP (fun op => op.isInsertSlice) = 0) :
    findInsertSliceLoop body found = Except.ok found := by
  induction body generalizing found with
  | nil => rfl
  | cons op rest ih =>
    rw [List.countP_cons] at h
    by_cases hop : op.isInsertSlice
    · simp [hop] at h
    · have h0 : rest.countP (fun op => op.isInsertSlice) = 0 := by
        simp only [hop, Bool.false_eq_true, if_false, Nat.add_zero] at h
        exact h
      simp only [findInsertSliceLoop, hop, Bool.false_eq_true, if_false]
      exact ih found h0

/-- A scan that has already found an accumulation op errors as soon as
the remaining body contains another one. -/
theorem findInsertSliceLoop_some_multi (body : List BodyOp) (a : BodyOp)
    (h : 1 ≤ body.countP (fun op => op.isInsertSlice)) :
    findInsertSliceLoop body (some a) =
      Except.error "Multiple tensor.insert_slice operations found in the innerLoop body" := by
  induction body generalizing a with
  | nil =>
    rw [List.countP_nil] at h
    exact absurd h (by decide)
  | cons op rest ih =>
    by_cases hop : op.isInsertSlice
    · simp [findInsertSliceLoop, hop]
    · rw [List.countP_cons] at h
      simp only [hop, Bool.false_eq_true, if_false, Nat.add_zero] at h
      simp only [findInsertSliceLoop, hop, Bool.false_eq_true, if_false]
      exact ih a h

/-- A scan from the empty accumulator over a body with exactly one
accumulation op returns it. -/
theorem findInsertSliceLoop_count_one (body : List BodyOp)
    (h : body.countP (fun op => op.isInsertSlice) = 1) :
    ∃ op, findInsertSliceLoop body none = Except.ok (some op) ∧
      op ∈ body ∧ op.isInsertSlice = true := by
  induction body with
  | nil =>
    rw [List.countP_nil] at h
    exact absurd h (by decide)
  | cons op rest ih =>
    rw [List.countP_cons] at h
    by_cases hop : op.isInsertSlice
    · have hr : rest.countP (fun op => op.isInsertSlice) = 0 := by
        simp only [hop, if_true] at h
        omega
      refine ⟨op, ?_, List.mem_cons_self _ _, hop⟩
      simp only [findInsertSliceLoop, hop, if_true]
      exact findInsertSliceLoop_count_zero rest (some op) hr
    · have hr : rest.countP (fun op => op.isInsertSlice) = 1 := by
        simp only [hop, Bool.false_eq_true, if_false, Nat.add_zero] at h
        exact h
      obtain ⟨op2, h1, h2, h3⟩ := ih hr
      refine ⟨op2, ?_, List.mem_cons_of_mem _ h2, h3⟩
      simp only [findInsertSliceLoop, hop, Bool.false_eq_true, if_false]
      exact h1

/-- A scan from the empty accumulator over a body with at least two
accumulation ops errors. -/
theorem findInsertSliceLoop_none_multi (body : List BodyOp)
    (h : 2 ≤ body.countP (fun op => op.isInsertSlice)) :
    findInsertSliceLoop body none =
      Except.error "Multiple tensor.insert_slice operations found in the innerLoop body" := by
  induction body with
  | nil =>
    rw [List.countP_nil] at h
    exact absurd h (by decide)
  | cons op rest ih =>
    rw [List.countP_cons] at h
    by_cases hop : op.isInsertSlice
    · simp only [findInsertSliceLoop, hop, if_true]
      refine findInsertSliceLoop_some_multi rest op ?_
      simp only [hop, if_true] at h
      omega
    · simp only [findInsertSliceLoop, hop, Bool.false_eq_true, if_false]
      refine ih ?_
      simp only [hop, Bool.false_eq_true, if_false, Nat.add_zero] at h
      exact h

/-- C5: the accumulation-op lookup of the loop-swap rewrite
(SConv.cpp:181-191) fails with the missing-op error when the inner body
contains no `tensor.insert_slice`, fails with the multiple-ops error when
it contains two or more, and returns the unique `tensor.insert_slice`
when exactly one exists. -/
theorem C5_accumulation_lookup (body : List BodyOp) :
    (body.countP (fun op => op.isInsertSlice) = 0 →
      lookupInsertSlice body =
        Except.error "No tensor.insert_slice operation found in the innerLoop body") ∧
    (2 ≤ body.countP (fun op => op.isInsertSlice) →
      lookupInsertSlice body =
        Except.error "Multiple tensor.insert_slice operations found in the innerLoop body") ∧
    (body.countP (fun op => op.isInsertSlice) = 1 →
      ∃ op, lookupInsertSlice body = Except.ok op ∧ op ∈ body ∧ op.isInsertSlice = true) := by
  refine ⟨fun h0 => ?_, fun h2 => ?_, fun h1 => ?_⟩
  · unfold lookupInsertSlice
    rw [findInsertSliceLoop_count_zero body none h0]
  · unfold lookupInsertSlice
    rw [findInsertSliceLoop_none_multi body h2]
  · obtain ⟨op, hfind, hmem, hins⟩ := findInsertSliceLoop_count_one body h1
    refine ⟨op, ?_, hmem, hins⟩
    unfold lookupInsertSlice
    rw [hfind]

/-- C5 witness: concrete bodies with zero, two and one
`tensor.insert_slice` operations. -/
theorem C5_accumulation_lookup_witness :
    lookupInsertSlice [BodyOp.genericOp 0, BodyOp.otherOp 1] =
      Except.error "No tensor.insert_slice operation found in the innerLoop body" ∧
    lookupInsertSlice [BodyOp.insertSlice 0, BodyOp.genericOp 1, BodyOp.insertSlice 2] =
      Except.error "Multiple tensor.insert_slice operations found in the innerLoop body" ∧
    (∃ op, lookupInsertSlice [BodyOp.genericOp 0, BodyOp.insertSlice 7] = Except.ok op ∧
      op ∈ [BodyOp.genericOp 0, BodyOp.insertSlice 7] ∧ op.isInsertSlice = true) :=
  ⟨(C5_accumulation_lookup [BodyOp.genericOp 0, BodyOp.otherOp 1]).1 (by decide),
   (C5_accumulation_lookup
      [BodyOp.insertSlice 0, BodyOp.genericOp 1, BodyOp.insertSlice 2]).2.1 (by decide),
   (C5_accumulation_lookup [BodyOp.genericOp 0, BodyOp.insertSlice 7]).2.2 (by decide)⟩

/-- C10: the analyzer input built at SConv.cpp:434 contains only
`(ic, oh, ow, fh, fw, oc)` and the literal vector width 4, so two
convolutions agreeing on those six parameters — whatever their batch
sizes or strides — give the analyzer identical inputs, and any analyzer
that is a function of its input returns identical decisions for them. -/
theorem C10_analyzer_input_independence (csa : ConvInfo → CSAStrategy)
    (p q : ConvParams)
    (hic : p.ic = q.ic) (hoh : p.oh = q.oh) (how : p.ow = q.ow)
    (hfh : p.fh = q.fh) (hfw : p.fw = q.fw) (hoc : p.oc = q.oc) :
    mkCsaConv p = mkCsaConv q ∧ csa (mkCsaConv p) = csa (mkCsaConv q) := by
  have h : mkCsaConv p = mkCsaConv q := by
    simp [mkCsaConv, hic, hoh, how, hfh, hfw, hoc]
  exact ⟨h, by rw [h]⟩

/-- C10 witness: two convolutions differing only in batch size (1 vs 7)
and strides (1,1 vs 2,2) produce the same analyzer input and the same
decision under a sample analyzer. -/
theorem C10_analyzer_input_independence_witness :
    mkCsaConv ⟨1, 3, 3, 3, 8, 8, 8, 1, 1⟩ = mkCsaConv ⟨7, 3, 3, 3, 8, 8, 8, 2, 2⟩ ∧
    (fun info : ConvInfo => CSAStrategy.mk Sched.WS info.ic 1 1)
        (mkCsaConv ⟨1, 3, 3, 3, 8, 8, 8, 1, 1⟩) =
      (fun info : ConvInfo => CSAStrategy.mk Sched.WS info.ic 1 1)
        (mkCsaConv ⟨7, 3, 3, 3, 8, 8, 8, 2, 2⟩) :=
  C10_analyzer_input_independence (fun info : ConvInfo => CSAStrategy.mk Sched.WS info.ic 1 1)
    ⟨1, 3, 3, 3, 8, 8, 8, 1, 1⟩ ⟨7, 3, 3, 3, 8, 8, 8, 2, 2⟩ rfl rfl rfl rfl rfl rfl

/-- C6: the new outer loop is built from the old inner loop's lower
bound, upper bound and step together with the old outer loop's initial
arguments; the new inner loop is built inside it from the old outer
loop's lower bound, upper bound and step together with the new outer
loop's region iteration arguments; and the substitution map sends the old
outer induction variable to the new inner induction variable and the old
inner induction variable to the new outer induction variable
(SConv.cpp:145-168). -/
theorem C6_swap_construction (outerLoop innerLoop : ForOpData) (freshOp freshVal : Nat)
    (hiv : outerLoop.inductionVar ≠ innerLoop.inductionVar) :
    (buildSwappedLoops outerLoop innerLoop freshOp freshVal).1.lowerBound =
        innerLoop.lowerBound ∧
    (buildSwappedLoops outerLoop innerLoop freshOp freshVal).1.upperBound =
        innerLoop.upperBound ∧
    (buildSwappedLoops outerLoop innerLoop freshOp freshVal).1.step = innerLoop.step ∧
    (buildSwappedLoops outerLoop innerLoop freshOp freshVal).1.initArgs =
        outerLoop.initArgs ∧
    (buildSwappedLoops outerLoop innerLoop freshOp freshVal).2.1.lowerBound =
        outerLoop.lowerBound ∧
    (buildSwappedLoops outerLoop innerLoop freshOp freshVal).2.1.upperBound =
        outerLoop.upperBound ∧
    (buildSwappedLoops outerLoop innerLoop freshOp freshVal).2.1.step = outerLoop.step ∧
    (buildSwappedLoops outerLoop innerLoop freshOp freshVal).2.1.initArgs =
        (buildSwappedLoops outerLoop innerLoop freshOp freshVal).1.regionIterArgs ∧
    (buildSwappedLoops outerLoop innerLoop freshOp freshVal).2.1.opId ∈
        (buildSwappedLoops outerLoop innerLoop freshOp freshVal).1.bodyLoops ∧
    List.lookup outerLoop.inductionVar
        (buildSwappedLoops outerLoop innerLoop freshOp freshVal).2.2 =
      some (buildSwappedLoops outerLoop innerLoop freshOp freshVal).2.1.inductionVar ∧
    List.lookup innerLoop.inductionVar
        (buildSwappedLoops outerLoop innerLoop freshOp freshVal).2.2 =
      some (buildSwappedLoops outerLoop innerLoop freshOp freshVal).1.inductionVar := by
  refine ⟨rfl, rfl, rfl, rfl, rfl, rfl, rfl, rfl, ?_, ?_, ?_⟩
  · simp [buildSwappedLoops, mkForOp]
  · simp [buildSwappedLoops, mkForOp, List.lookup]
  · have hne : (innerLoop.inductionVar == outerLoop.inductionVar) = false := by
      simp [Ne.symm hiv]
    simp [buildSwappedLoops, mkForOp, List.lookup, hne]

/-- C6 witness: the construction at a concrete pair of loops with
distinct induction variables. -/
theorem C6_swap_construction_witness :
    (buildSwappedLoops ⟨0, 10, 11, 12, [13, 14], 15, [16, 17], []⟩
        ⟨1, 20, 21, 22, [23, 24], 25, [26, 27], []⟩ 100 200).1.lowerBound = 20 ∧
    (buildSwappedLoops ⟨0, 10, 11, 12, [13, 14], 15, [16, 17], []⟩
        ⟨1, 20, 21, 22, [23, 24], 25, [26, 27], []⟩ 100 200).1.upperBound = 21 ∧
    (buildSwappedLoops ⟨0, 10, 11, 12, [13, 14], 15, [16, 17], []⟩
        ⟨1, 20, 21, 22, [23, 24], 25, [26, 27], []⟩ 100 200).1.step = 22 ∧
    (buildSwappedLoops ⟨0, 10, 11, 12, [13, 14], 15, [16, 17], []⟩
        ⟨1, 20, 21, 22, [23, 24], 25, [26, 27], []⟩ 100 200).1.initArgs = [13, 14] ∧
    (buildSwappedLoops ⟨0, 10, 11, 12, [13, 14], 15, [16, 17], []⟩
        ⟨1, 20, 21, 22, [23, 24], 25, [26, 27], []⟩ 100 200).2.1.lowerBound = 10 ∧
    (buildSwappedLoops ⟨0, 10, 11, 12, [13, 14], 15, [16, 17], []⟩
        ⟨1, 20, 21, 22, [23, 24], 25, [26, 27], []⟩ 100 200).2.1.upperBound = 11 ∧
    (buildSwappedLoops ⟨0, 10, 11, 12, [13, 14], 15, [16, 17], []⟩
        ⟨1, 20, 21, 22, [23, 24], 25, [26, 27], []⟩ 100 200).2.1.step = 12 ∧
    (buildSwappedLoops ⟨0, 10, 11, 12, [13, 14], 15, [16, 17], []⟩
        ⟨1, 20, 21, 22, [23, 24], 25, [26, 27], []⟩ 100 200).2.1.initArgs =
      (buildSwappedLoops ⟨0, 10, 11, 12, [13, 14], 15, [16, 17], []⟩
        ⟨1, 20, 21, 22, [23, 24], 25, [26, 27], []⟩ 100 200).1.regionIterArgs ∧
    (buildSwappedLoops ⟨0, 10, 11, 12, [13, 14], 15, [16, 17], []⟩
        ⟨1, 20, 21, 22, [23, 24], 25, [26, 27], []⟩ 100 200).2.1.opId ∈
      (buildSwappedLoops ⟨0, 10, 11, 12, [13, 14], 15, [16, 17], []⟩
        ⟨1, 20, 21, 22, [23, 24], 25, [26, 27], []⟩ 100 200).1.bodyLoops ∧
    List.lookup 15 (buildSwappedLoops ⟨0, 10, 11, 12, [13, 14], 15, [16, 17], []⟩
        ⟨1, 20, 21, 22, [23, 24], 25, [26, 27], []⟩ 100 200).2.2 =
      some (buildSwappedLoops ⟨0, 10, 11, 12, [13, 14], 15, [16, 17], []⟩
        ⟨1, 20, 21, 22, [23, 24], 25, [26, 27], []⟩ 100 200).2.1.inductionVar ∧
    List.lookup 25 (buildSwappedLoops ⟨0, 10, 11, 12, [13, 14], 15, [16, 17], []⟩
        ⟨1, 20, 21, 22, [23, 24], 25, [26, 27], []⟩ 100 200).2.2 =
      some (buildSwappedLoops ⟨0, 10, 11, 12, [13, 14], 15, [16, 17], []⟩
        ⟨1, 20, 21, 22, [23, 24], 25, [26, 27], []⟩ 100 200).1.inductionVar :=
  C6_swap_construction ⟨0, 10, 11, 12, [13, 14], 15, [16, 17], []⟩
    ⟨1, 20, 21, 22, [23, 24], 25, [26, 27], []⟩ 100 200 (by decide)

/-- Containment relation contributed by the swap construction: a handle
contains another when the latter is recorded among the former's body
loops in the newly built pair. -/
def swapContains (outerLoop innerLoop : ForOpData) (freshOp freshVal : Nat) :
    Nat → Nat → Bool :=
  fun a b =>
    let built := buildSwappedLoops outerLoop innerLoop freshOp freshVal
    (a == built.1.opId && built.1.bodyLoops.contains b) ||
    (a == built.2.1.opId && built.2.1.bodyLoops.contains b)

/-- C9 counterexample: after a concrete Input-Stationary swap, the
recorded handle list has the new outer loop at index 0 and the new inner
loop — which it contains — at index 1, so the list is not ordered
innermost first. -/
theorem C9_not_innermost_first :
    ¬ innermostFirst
        (swapContains ⟨2, 10, 11, 12, [13], 15, [16], []⟩
          ⟨3, 20, 21, 22, [23], 25, [26], []⟩ 100 200)
        (swapUpdateLoopOps ⟨2, 10, 11, 12, [13], 15, [16], []⟩
          ⟨3, 20, 21, 22, [23], 25, [26], []⟩ 100 200 [2, 3, 4, 5, 6, 7]) := by
  decide

/-- C9 (amended): the handle update after the swap overwrites positions 0
and 1 in place, leaving the new outer loop first and the new inner loop —
nested inside it — second: the innermost pair is reported outermost
first, and the remaining handles are unchanged (SConv.cpp:244-245). -/
theorem C9_handle_order (outerLoop innerLoop : ForOpData) (freshOp freshVal : Nat)
    (a b : Nat) (rest : List Nat) :
    swapUpdateLoopOps outerLoop innerLoop freshOp freshVal (a :: b :: rest) =
      (buildSwappedLoops outerLoop innerLoop freshOp freshVal).1.opId ::
        (buildSwappedLoops outerLoop innerLoop freshOp freshVal).2.1.opId :: rest ∧
    (buildSwappedLoops outerLoop innerLoop freshOp freshVal).2.1.opId ∈
      (buildSwappedLoops outerLoop innerLoop freshOp freshVal).1.bodyLoops := by
  constructor
  · rfl
  · simp [buildSwappedLoops, mkForOp]

instance {ε α : Type} [DecidableEq ε] [DecidableEq α] : DecidableEq (Except ε α) :=
  fun a b =>
    match a, b with
    | Except.error e, Except.error f =>
      if h : e = f then isTrue (h ▸ rfl)
      else isFalse (fun hc => h (Except.error.inj hc))
    | Except.error _, Except.ok _ => isFalse (fun hc => Except.noConfusion hc)
    | Except.ok _, Except.error _ => isFalse (fun hc => Except.noConfusion hc)
    | Except.ok x, Except.ok y =>
      if h : x = y then isTrue (h ▸ rfl)
      else isFalse (fun hc => h (Except.ok.inj hc))

/-- C7 counterexample: on an Input-Stationary input whose inner body
contains no `tensor.insert_slice`, `swapInductionVars` raises the
structural error only AFTER creating the two new loops and cloning the
body (SConv.cpp:147-179 precede the check at 181-191), and nothing erases
them on that path — so new loops remain inserted on this failure,
contradicting the claim that no mutation is committed before a
structural failure. -/
theorem C7_structural_error_after_mutation :
    (swapInductionVarsTrace ⟨Sched.IS, true, [BodyOp.genericOp 0], true, true⟩).1 =
      Except.error "No tensor.insert_slice operation found in the innerLoop body" ∧
    SwapEvent.createNewLoop 0 ∈
      (swapInductionVarsTrace ⟨Sched.IS, true, [BodyOp.genericOp 0], true, true⟩).2 ∧
    SwapEvent.createNewLoop 1 ∈
      (swapInductionVarsTrace ⟨Sched.IS, true, [BodyOp.genericOp 0], true, true⟩).2 ∧
    SwapEvent.eraseOldLoop 0 ∉
      (swapInductionVarsTrace ⟨Sched.IS, true, [BodyOp.genericOp 0], true, true⟩).2 ∧
    SwapEvent.eraseOldLoop 1 ∉
      (swapInductionVarsTrace ⟨Sched.IS, true, [BodyOp.genericOp 0], true, true⟩).2 := by
  decide

/-- C7 (amended): only the loop-shape check (`Loops must be scf.for`)
fails before any mutation; the structural errors for a missing or
duplicated accumulation op (and for invalid yielded types) are raised
after the two new loops have been created and the inner body cloned, and
those new loops remain inserted.  The ORIGINAL loops are intact on every
failure path, since the erasure of the old loops happens only on the
success path (SConv.cpp:237-238). -/
theorem C7_swap_failure_atomicity (inp : SwapInput) :
    (inp.schd = Sched.IS → inp.loopsAreFor = false →
      swapInductionVarsTrace inp = (Except.error "Loops must be scf.for", [])) ∧
    (∀ msg, (swapInductionVarsTrace inp).1 = Except.error msg →
      SwapEvent.eraseOldLoop 0 ∉ (swapInductionVarsTrace inp).2 ∧
      SwapEvent.eraseOldLoop 1 ∉ (swapInductionVarsTrace inp).2) ∧
    (inp.schd = Sched.IS → inp.loopsAreFor = true →
      ∀ msg, lookupInsertSlice inp.innerBody = Except.error msg →
        (swapInductionVarsTrace inp).1 = Except.error msg ∧
        SwapEvent.createNewLoop 0 ∈ (swapInductionVarsTrace inp).2 ∧
        SwapEvent.createNewLoop 1 ∈ (swapInductionVarsTrace inp).2) := by
  obtain ⟨schd, loopsFor, body, fsh, ish⟩ := inp
  refine ⟨?_, ?_, ?_⟩
  · intro hs hl
    subst hs
    subst hl
    simp [swapInductionVarsTrace]
  · intro msg hmsg
    cases schd with
    | WS => simp [swapInductionVarsTrace] at hmsg
    | IS =>
      cases loopsFor with
      | false => simp [swapInductionVarsTrace]
      | true =>
        cases hluk : lookupInsertSlice body with
        | error m =>
          simp only [swapInductionVarsTrace, hluk]
          simp
        | ok o =>
          cases fsh with
          | false =>
            simp only [swapInductionVarsTrace, hluk]
            simp
          | true =>
            cases ish with
            | false =>
              simp only [swapInductionVarsTrace, hluk]
              simp
            | true =>
              simp only [swapInductionVarsTrace, hluk] at hmsg
              simp at hmsg
  · intro hs hl msg hluk
    subst hs
    subst hl
    simp only [swapInductionVarsTrace, hluk]
    refine ⟨by simp, ?_, ?_⟩ <;> simp

/-- C7 witness: the not-scf.for check at a concrete input fails with an
empty mutation trace; a concrete missing-accumulation input errors after
the loop creations; and a concrete error trace contains no erasure. -/
theorem C7_swap_failure_atomicity_witness :
    swapInductionVarsTrace ⟨Sched.IS, false, [], true, true⟩ =
      (Except.error "Loops must be scf.for", []) ∧
    (SwapEvent.eraseOldLoop 0 ∉
        (swapInductionVarsTrace ⟨Sched.IS, false, [], true, true⟩).2 ∧
      SwapEvent.eraseOldLoop 1 ∉
        (swapInductionVarsTrace ⟨Sched.IS, false, [], true, true⟩).2) ∧
    ((swapInductionVarsTrace ⟨Sched.IS, true, [BodyOp.otherOp 4], true, true⟩).1 =
        Except.error "No tensor.insert_slice operation found in the innerLoop body" ∧
      SwapEvent.createNewLoop 0 ∈
        (swapInductionVarsTrace ⟨Sched.IS, true, [BodyOp.otherOp 4], true, true⟩).2 ∧
      SwapEvent.createNewLoop 1 ∈
        (swapInductionVarsTrace ⟨Sched.IS, true, [BodyOp.otherOp 4], true, true⟩).2) :=
  ⟨(C7_swap_failure_atomicity ⟨Sched.IS, false, [], true, true⟩).1 rfl rfl,
   (C7_swap_failure_atomicity ⟨Sched.IS, false, [], true, true⟩).2.1
     "Loops must be scf.for" (by decide),
   (C7_swap_failure_atomicity ⟨Sched.IS, true, [BodyOp.otherOp 4], true, true⟩).2.2
     rfl rfl "No tensor.insert_slice operation found in the innerLoop body" (by decide)⟩

/-- Sequential replacement leaves a value untouched when it is none of
the replaced values. -/
theorem substSeq_not_mem (pairs : List (Nat × Nat)) (v : Nat)
    (h : v ∉ pairs.map Prod.fst) : substSeq pairs v = v := by
  induction pairs with
  | nil => rfl
  | cons p rest ih =>
    simp only [List.map_cons, List.mem_cons, not_or] at h
    simp only [substSeq, if_neg h.1]
    exact ih h.2

/-- Sequential replacement sends a replaced value to its partner when the
replaced values are distinct and no replacement value is itself replaced
(both hold in SSA form: results are distinct and the new loops' results
are fresh). -/
theorem substSeq_of_mem (pairs : List (Nat × Nat)) (o n : Nat)
    (hmem : (o, n) ∈ pairs)
    (hnd : (pairs.map Prod.fst).Nodup)
    (hfr : ∀ p ∈ pairs, p.2 ∉ pairs.map Prod.fst) :
    substSeq pairs o = n := by
  induction pairs with
  | nil => simp at hmem
  | cons q rest ih =>
    simp only [List.map_cons, List.nodup_cons] at hnd
    rcases List.mem_cons.mp hmem with heq | hmem2
    · cases heq.symm
      simp only [substSeq, if_pos rfl]
      refine substSeq_not_mem rest n ?_
      have hn := hfr (o, n) (List.mem_cons_self _ _)
      simp only [List.map_cons, List.mem_cons, not_or] at hn
      exact hn.2
    · have ho : o ∈ rest.map Prod.fst :=
        List.mem_map.mpr ⟨(o, n), hmem2, rfl⟩
      have hne : o ≠ q.1 := fun h => hnd.1 (h ▸ ho)
      simp only [substSeq, if_neg hne]
      refine ih hmem2 hnd.2 ?_
      intro p hp
      have := hfr p (List.mem_cons_of_mem _ hp)
      simp only [List.map_cons, List.mem_cons, not_or] at this
      exact this.2

/-- C8: after the post-swap cleanup (SConv.cpp:229-238) — given that the
old/new result lists correspond pairwise, the old results are distinct,
and the new results are fresh — every use of an old inner or outer loop
result is redirected to the corresponding new loop result, no remaining
use refers to any result of the deleted loops, and neither deleted loop
remains in the op list. -/
theorem C8_use_redirection (oldIR newIR oldOR newOR : List Nat)
    (uses : List (Nat × Nat)) (ops : List Nat) (oldInnerId oldOuterId : Nat)
    (hl1 : oldIR.length = newIR.length) (hl2 : oldOR.length = newOR.length)
    (hnd : (oldIR ++ oldOR).Nodup)
    (hfr : ∀ v ∈ newIR ++ newOR, v ∉ oldIR ++ oldOR) :
    (∀ o n, (o, n) ∈ oldIR.zip newIR ++ oldOR.zip newOR →
      ∀ u ∈ uses, u.2 = o →
        (u.1, n) ∈
          (finalizeSwap oldIR newIR oldOR newOR uses ops oldInnerId oldOuterId).1) ∧
    (∀ u ∈ (finalizeSwap oldIR newIR oldOR newOR uses ops oldInnerId oldOuterId).1,
      u.2 ∉ oldIR ++ oldOR) ∧
    oldInnerId ∉ (finalizeSwap oldIR newIR oldOR newOR uses ops oldInnerId oldOuterId).2 ∧
    oldOuterId ∉ (finalizeSwap oldIR newIR oldOR newOR uses ops oldInnerId oldOuterId).2 := by
  have hfst : (oldIR.zip newIR ++ oldOR.zip newOR).map Prod.fst = oldIR ++ oldOR := by
    rw [List.map_append, List.map_fst_zip _ _ (le_of_eq hl1),
      List.map_fst_zip _ _ (le_of_eq hl2)]
  have hsnd : ∀ p ∈ oldIR.zip newIR ++ oldOR.zip newOR, p.2 ∈ newIR ++ newOR := by
    intro p hp
    rcases List.mem_append.mp hp with hp | hp
    · exact List.mem_append.mpr (Or.inl (List.of_mem_zip hp).2)
    · exact List.mem_append.mpr (Or.inr (List.of_mem_zip hp).2)
  have hnd' : ((oldIR.zip newIR ++ oldOR.zip newOR).map Prod.fst).Nodup := by
    rw [hfst]; exact hnd
  have hfr' : ∀ p ∈ oldIR.zip newIR ++ oldOR.zip newOR,
      p.2 ∉ (oldIR.zip newIR ++ oldOR.zip newOR).map Prod.fst := by
    intro p hp
    rw [hfst]
    exact hfr p.2 (hsnd p hp)
  refine ⟨?_, ?_, ?_, ?_⟩
  · intro o n hon u hu h2
    have hsub : substSeq (oldIR.zip newIR ++ oldOR.zip newOR) u.2 = n := by
      rw [h2]
      exact substSeq_of_mem _ o n hon hnd' hfr'
    exact List.mem_map.mpr ⟨u, hu, by rw [hsub]⟩
  · intro u hu
    obtain ⟨w, hw, rfl⟩ := List.mem_map.mp hu
    by_cases hc : w.2 ∈ (oldIR.zip newIR ++ oldOR.zip newOR).map Prod.fst
    · obtain ⟨p, hp, hpeq⟩ := List.mem_map.mp hc
      have : substSeq (oldIR.zip newIR ++ oldOR.zip newOR) w.2 = p.2 := by
        refine substSeq_of_mem _ w.2 p.2 ?_ hnd' hfr'
        have : p = (w.2, p.2) := by
          cases p
          simp only at hpeq
          rw [hpeq]
        rw [← this]
        exact hp
      rw [hfst] at hc
      simp only [this]
      rw [← hfst]
      exact hfr' p hp
    · rw [hfst] at hc
      have : substSeq (oldIR.zip newIR ++ oldOR.zip newOR) w.2 = w.2 := by
        refine substSeq_not_mem _ _ ?_
        rw [hfst]
        exact hc
      simp only [this]
      exact hc
  · simp [finalizeSwap, List.mem_filter]
  · simp [finalizeSwap, List.mem_filter]

/-- C8 witness: a concrete cleanup — old inner results `[1,2]` and outer
result `[3]` redirected to fresh `[5,6]` and `[7]`, loops `20` and `21`
erased from the op list. -/
theorem C8_use_redirection_witness :
    (∀ o n, (o, n) ∈ ([1, 2] : List Nat).zip [5, 6] ++ ([3] : List Nat).zip [7] →
      ∀ u ∈ ([(100, 1), (101, 3), (102, 9)] : List (Nat × Nat)), u.2 = o →
        (u.1, n) ∈
          (finalizeSwap [1, 2] [5, 6] [3] [7] [(100, 1), (101, 3), (102, 9)]
            [20, 21, 22] 20 21).1) ∧
    (∀ u ∈ (finalizeSwap [1, 2] [5, 6] [3] [7] [(100, 1), (101, 3), (102, 9)]
        [20, 21, 22] 20 21).1,
      u.2 ∉ ([1, 2] : List Nat) ++ [3]) ∧
    20 ∉ (finalizeSwap [1, 2] [5, 6] [3] [7] [(100, 1), (101, 3), (102, 9)]
        [20, 21, 22] 20 21).2 ∧
    21 ∉ (finalizeSwap [1, 2] [5, 6] [3] [7] [(100, 1), (101, 3), (102, 9)]
        [20, 21, 22] 20 21).2 :=
  C8_use_redirection [1, 2] [5, 6] [3] [7] [(100, 1), (101, 3), (102, 9)]
    [20, 21, 22] 20 21 rfl rfl (by decide) (by decide)

end SConvProof
